import Mathlib

/-!
Shallow embedding of `src/notifier/rule.py` from sanger/aker-events-notifier.

The `Rule` class classifies one incoming event (the "message") and, per event
type, hands zero or more notification requests to the `Notify` collaborator
via `send_email`.  We model a classification run as a pure function from the
configuration and the message to `Except PyErr (List NotificationRequest)`:
the `ok` list collects the `send_email` calls in order, and `error` models a
Python exception escaping `check_rules` to its caller.  (No handler can raise
after it has already called `send_email`, so the all-or-nothing `Except`
model coincides with the emitted-so-far semantics of the Python code.)

Logging (`logger.debug` / `logger.error`) is an external side effect with no
influence on the produced requests; it is noted in comments where relevant.
-/

/-- Python values as they appear in the template-`data` dictionaries built by
the handlers: strings, lists of strings (`hmdmc`, `deputies`), and booleans
(`all_received`). -/
inductive Value where
  | str (s : String)
  | strList (l : List String)
  | bool (b : Bool)
  deriving DecidableEq, Repr

/-- An insertion-ordered string-keyed dictionary, as Python's `dict`. -/
abbrev Dict := List (String × Value)

/-- Python `d[k] = v`: update the value in place if `k` is already a key
(keeping its position, as Python dicts do), otherwise append `(k, v)`. -/
def dictSet : Dict → String → Value → Dict
  | [], k, v => [(k, v)]
  | (k', v') :: rest, k, v =>
      if k' = k then (k', v) :: rest else (k', v') :: dictSet rest k v

/-- Exceptions that can escape the handlers in `rule.py`. -/
inductive PyErr where
  | valueError (msg : String)
  | keyError (key : String)
  | attributeError (msg : String)
  deriving DecidableEq, Repr

/-- The `message.metadata` dictionary, restricted to the keys `rule.py`
reads (spec section 3 fixes their types).  An absent key is `none`. -/
structure Metadata where
  manifest_id : Option String := none
  sample_custodian : Option String := none
  deputies : Option (List String) := none
  barcode : Option String := none
  created_at : Option String := none
  all_received : Option Bool := none
  work_order_id : Option String := none
  hmdmc : Option (List String) := none
  error : Option String := none
  deriving DecidableEq, Repr

/-- The `message.notifier_info` dictionary, restricted to the keys read. -/
structure NotifierInfo where
  work_plan_id : Option String := none
  drs_study_code : Option String := none
  deriving DecidableEq, Repr

/-- One incoming event, as consumed by `Rule`. -/
structure Message where
  event_type : String
  user_identifier : String
  metadata : Metadata := {}
  notifier_info : NotifierInfo := {}
  timestamp : String := ""
  deriving DecidableEq, Repr

/-- `config.email`. -/
structure EmailConfig where
  from_address : String
  deriving DecidableEq, Repr

/-- `config.contact`. -/
structure ContactConfig where
  email_dev_team : String
  email_hmdmc_verify : String
  deriving DecidableEq, Repr

/-- `config.link`. -/
structure LinkConfig where
  protocol : String
  root : String
  port : Nat
  deriving DecidableEq, Repr

/-- The read-only configuration, restricted to the fields `rule.py` reads. -/
structure Config where
  email : EmailConfig
  contact : ContactConfig
  link : LinkConfig
  deriving DecidableEq, Repr

/-- The arguments of one `Notify.send_email` call (the notification request
handed to the external sender). -/
structure NotificationRequest where
  subject : String
  from_address : String
  «to» : List String
  template : String
  data : Dict
  deriving DecidableEq, Repr

/-- Python truthiness of `metadata.get(key)` for a string-valued key:
the key is present and its value is a non-empty string. -/
def truthyS : Option String → Bool
  | some s => !s.isEmpty
  | none => false

/-- Python truthiness of `metadata.get(key)` for a list-valued key:
the key is present and its value is a non-empty list. -/
def truthyL : Option (List String) → Bool
  | some l => !l.isEmpty
  | none => false

/-- Python truthiness of `metadata.get(key)` for a boolean-valued key. -/
def truthyB : Option Bool → Bool
  | some b => b
  | none => false

/-- Python `d[key]` on a modelled optional field: the value when the key is
present, a `KeyError` otherwise. -/
def getItem (o : Option String) (key : String) : Except PyErr String :=
  match o with
  | some s => Except.ok s
  | none => Except.error (PyErr.keyError key)

namespace Consts

/-- Event tag from `notifier/consts.py` (named in the spec's dispatch table). -/
def EVENT_MAN_CREATED : String := "manifest.created"

/-- Event tag from `notifier/consts.py`. -/
def EVENT_MAN_RECEIVED : String := "manifest.received"

/-- Event tag from `notifier/consts.py`. -/
def EVENT_WO_DISPATCHED : String := "work_order.dispatched"

/-- Event tag from `notifier/consts.py`. -/
def EVENT_WO_CONCLUDED : String := "work_order.concluded"

/-- Event tag from `notifier/consts.py`. -/
def EVENT_CAT_NEW : String := "catalogue.new"

/-- Event tag from `notifier/consts.py`. -/
def EVENT_CAT_PROCESSED : String := "catalogue.processed"

/-- Event tag from `notifier/consts.py`. -/
def EVENT_CAT_REJECTED : String := "catalogue.rejected"

/-- Modelled from the spec: subject-prefix constant `SBJ_MAN_CREATED` lives in
`notifier/consts.py`, which is not under src/; the spec gives the subject as
`"Manifest Created " + manifest_id`. -/
def SBJ_MAN_CREATED : String := "Manifest Created"

/-- Modelled from the spec: `SBJ_MAN_CREATED_HMDMC` is in `consts.py` (not
under src/); the spec gives `"Manifest Created HMDMC " + manifest_id`. -/
def SBJ_MAN_CREATED_HMDMC : String := "Manifest Created HMDMC"

/-- Modelled from the spec: `SBJ_MAN_RECEIVED` is in `consts.py` (not under
src/); the spec gives `"Manifest Received " + manifest_id`. -/
def SBJ_MAN_RECEIVED : String := "Manifest Received"

/-- Modelled from the spec: `SBJ_PREFIX_WO` is in `consts.py` (not under
src/); the spec only calls it "the WO prefix", so its literal is nominal. -/
def SBJ_PREFIX_WO : String := "Work Order"

/-- Modelled from the spec: `SBJ_CAT_NEW` is a fixed constant in `consts.py`
(not under src/). -/
def SBJ_CAT_NEW : String := "Catalogue New"

/-- Modelled from the spec: `SBJ_CAT_PROCESSED` is a fixed constant in
`consts.py` (not under src/). -/
def SBJ_CAT_PROCESSED : String := "Catalogue Processed"

/-- Modelled from the spec: `SBJ_CAT_REJECTED` is a fixed constant in
`consts.py` (not under src/). -/
def SBJ_CAT_REJECTED : String := "Catalogue Rejected"

/-- Modelled from the spec: `PATH_RECEPTION` is in `consts.py` (not under
src/); the spec's LinkBuilder section shows the manifest link built with the
path segment `"reception"`. -/
def PATH_RECEPTION : String := "reception"

/-- Modelled from the spec: `PATH_WORK_ORDER_BEGIN` is in `consts.py` (not
under src/); the spec shows the work-order link as
`(protocol, host, port, "work-order-begin-segment", workPlanId, "work-order-end-segment")`. -/
def PATH_WORK_ORDER_BEGIN : String := "work-order-begin-segment"

/-- Modelled from the spec: `PATH_WORK_ORDER_END` is in `consts.py` (not
under src/), the fixed segment after the work plan id. -/
def PATH_WORK_ORDER_END : String := "work-order-end-segment"

end Consts

open Consts

/-- Python `str.capitalize()`: first character upper-cased, the rest
lower-cased. -/
def pyCapitalize (s : String) : String :=
  match s.data with
  | [] => ""
  | c :: rest => String.mk (c.toUpper :: rest.map Char.toLower)

namespace Rule

/-- `Rule._generate_manifest_link`: format
`'{}://{}:{}/{}/{}'` over `(link.protocol, link.root, link.port, path, id)`. -/
def _generate_manifest_link (cfg : Config) (path : String) (id : String) : String :=
  cfg.link.protocol ++ "://" ++ cfg.link.root ++ ":" ++ toString cfg.link.port
    ++ "/" ++ path ++ "/" ++ id

/-- `Rule._generate_wo_link`: format `'{}://{}:{}/{}/{}/{}'` over
`(link.protocol, link.root, link.port, PATH_WORK_ORDER_BEGIN, work_plan_id,
PATH_WORK_ORDER_END)`. -/
def _generate_wo_link (cfg : Config) (work_plan_id : String) : String :=
  cfg.link.protocol ++ "://" ++ cfg.link.root ++ ":" ++ toString cfg.link.port
    ++ "/" ++ PATH_WORK_ORDER_BEGIN ++ "/" ++ work_plan_id ++ "/" ++ PATH_WORK_ORDER_END

/-- `Rule._common_manifest`: recipient list `[user_identifier]` plus
`sample_custodian` and each deputy when truthy, and a data dict holding
`manifest_id` and `link` when `metadata.get('manifest_id')` is truthy.
This helper never raises. -/
def _common_manifest (cfg : Config) (msg : Message) : List String × Dict :=
  let data : Dict := []
  let data :=
    if truthyS msg.metadata.manifest_id then
      let mid := msg.metadata.manifest_id.getD ""
      dictSet (dictSet data "manifest_id" (Value.str mid))
        "link" (Value.str (_generate_manifest_link cfg PATH_RECEPTION mid))
    else data
  let «to» := [msg.user_identifier]
  let «to» :=
    if truthyS msg.metadata.sample_custodian then
      «to» ++ [msg.metadata.sample_custodian.getD ""]
    else «to»
  let «to» :=
    if truthyL msg.metadata.deputies then
      «to» ++ msg.metadata.deputies.getD []
    else «to»
  («to», data)

/-- `Rule._common_work_order`: when `metadata.get('work_order_id')` is truthy,
build `{work_order_id, link}` (the link indexes `notifier_info['work_plan_id']`,
which raises `KeyError` when absent); otherwise raise
`ValueError("Work Order ID not found in metadata dictionary")`. -/
def _common_work_order (cfg : Config) (msg : Message) :
    Except PyErr (List String × Dict) :=
  let data : Dict := []
  let «to» := [msg.user_identifier]
  if truthyS msg.metadata.work_order_id then
    match msg.metadata.work_order_id, msg.notifier_info.work_plan_id with
    | some wid, some wpid =>
        Except.ok («to»,
          dictSet (dictSet data "work_order_id" (Value.str wid))
            "link" (Value.str (_generate_wo_link cfg wpid)))
    | some _, none => Except.error (PyErr.keyError "work_plan_id")
    | none, _ => Except.error (PyErr.keyError "work_order_id")
  else
    Except.error (PyErr.valueError "Work Order ID not found in metadata dictionary")

/-- `Rule._common_catalogue`: just the dev-team address. -/
def _common_catalogue (cfg : Config) : List String :=
  [cfg.contact.email_dev_team]

/-- `Rule._on_manifest_create`.  The subject line indexes
`metadata['manifest_id']` with a raw subscript, so a missing `manifest_id`
raises `KeyError` before any `send_email` call.  When `metadata.get('hmdmc')`
is truthy a second request is sent whose data dict is the same (mutated)
dict with `hmdmc_list` added. -/
def _on_manifest_create (cfg : Config) (msg : Message) :
    Except PyErr (List NotificationRequest) :=
  let «to» := (_common_manifest cfg msg).1
  let data := dictSet (_common_manifest cfg msg).2
    "user_identifier" (Value.str msg.user_identifier)
  match msg.metadata.manifest_id with
  | none => Except.error (PyErr.keyError "manifest_id")
  | some mid =>
    let subject := SBJ_MAN_CREATED ++ " " ++ mid
    let first : NotificationRequest :=
      { subject := subject, from_address := cfg.email.from_address,
        «to» := «to», template := "manifest_created", data := data }
    if truthyL msg.metadata.hmdmc then
      let data := dictSet data "hmdmc_list" (Value.strList (msg.metadata.hmdmc.getD []))
      let subject := SBJ_MAN_CREATED_HMDMC ++ " " ++ mid
      Except.ok [first,
        { subject := subject, from_address := cfg.email.from_address,
          «to» := [cfg.contact.email_hmdmc_verify],
          template := "manifest_created_hmdmc", data := data }]
    else
      Except.ok [first]

/-- `Rule._on_manifest_received`.  Conditionally copies `barcode`,
`created_at` and `all_received` into the data dict; the subject line indexes
`metadata['manifest_id']` with a raw subscript (KeyError when absent). -/
def _on_manifest_received (cfg : Config) (msg : Message) :
    Except PyErr (List NotificationRequest) :=
  let «to» := (_common_manifest cfg msg).1
  let data :=
    if truthyS msg.metadata.barcode then
      dictSet (_common_manifest cfg msg).2 "barcode"
        (Value.str (msg.metadata.barcode.getD ""))
    else (_common_manifest cfg msg).2
  let data :=
    if truthyS msg.metadata.created_at then
      dictSet data "created_at" (Value.str (msg.metadata.created_at.getD ""))
    else data
  let data :=
    if truthyB msg.metadata.all_received then
      dictSet data "all_received" (Value.bool (msg.metadata.all_received.getD false))
    else data
  match msg.metadata.manifest_id with
  | none => Except.error (PyErr.keyError "manifest_id")
  | some mid =>
    Except.ok [{ subject := SBJ_MAN_RECEIVED ++ " " ++ mid,
                 from_address := cfg.email.from_address,
                 «to» := «to», template := "manifest_received", data := data }]

/-- `Rule._on_work_order_event`.  The `try` block calls `_common_work_order`;
`except ValueError as error:` runs `logger.error(error.message)` — under
Python 3 a `ValueError` has no `message` attribute, so evaluating
`error.message` raises `AttributeError` out of the handler before any email
is sent (and even where `error.message` exists, the next line reads the
unbound local `data`, raising `NameError`; either way the exception
propagates to the caller).  An uncaught error from the `try` block (the
`KeyError` on a missing `work_plan_id`) propagates unchanged.  On the success
path the subject indexes `metadata['work_order_id']` (present, since it was
truthy) and `notifier_info['drs_study_code']` (KeyError when absent). -/
def _on_work_order_event (cfg : Config) (msg : Message) :
    Except PyErr (List NotificationRequest) :=
  match _common_work_order cfg msg with
  | Except.error (PyErr.valueError _) =>
      Except.error (PyErr.attributeError "ValueError object has no attribute message")
  | Except.error e => Except.error e
  | Except.ok td =>
    let «to» := td.1
    let data := dictSet td.2 "user_identifier" (Value.str msg.user_identifier)
    let status := (msg.event_type.splitOn ".").getLastD ""
    let data := dictSet data "work_order_status" (Value.str status)
    match msg.metadata.work_order_id, msg.notifier_info.drs_study_code with
    | none, _ => Except.error (PyErr.keyError "work_order_id")
    | some _, none => Except.error (PyErr.keyError "drs_study_code")
    | some wid, some drs =>
      Except.ok [{ subject := SBJ_PREFIX_WO ++ " " ++ wid ++ " "
                     ++ pyCapitalize status ++ " [Data release:" ++ drs ++ "]",
                   from_address := cfg.email.from_address,
                   «to» := «to», template := "wo_event", data := data }]

/-- `Rule._on_catalogue_new`. -/
def _on_catalogue_new (cfg : Config) : Except PyErr (List NotificationRequest) :=
  Except.ok [{ subject := SBJ_CAT_NEW, from_address := cfg.email.from_address,
               «to» := _common_catalogue cfg, template := "catalogue_new", data := [] }]

/-- `Rule._on_catalogue_processed`. -/
def _on_catalogue_processed (cfg : Config) : Except PyErr (List NotificationRequest) :=
  Except.ok [{ subject := SBJ_CAT_PROCESSED, from_address := cfg.email.from_address,
               «to» := _common_catalogue cfg, template := "catalogue_processed", data := [] }]

/-- `Rule._on_catalogue_rejected`: `data` holds `error` and `timestamp`
exactly when `metadata.get('error')` is truthy. -/
def _on_catalogue_rejected (cfg : Config) (msg : Message) :
    Except PyErr (List NotificationRequest) :=
  let data : Dict :=
    if truthyS msg.metadata.error then
      dictSet (dictSet [] "error" (Value.str (msg.metadata.error.getD "")))
        "timestamp" (Value.str msg.timestamp)
    else []
  Except.ok [{ subject := SBJ_CAT_REJECTED, from_address := cfg.email.from_address,
               «to» := [cfg.contact.email_dev_team],
               template := "catalogue_rejected", data := data }]

/-- `Rule.check_rules`: the if/elif dispatch on `message.event_type`, with a
no-op `else` branch for unrecognized tags. -/
def check_rules (cfg : Config) (msg : Message) :
    Except PyErr (List NotificationRequest) :=
  if msg.event_type = EVENT_MAN_CREATED then _on_manifest_create cfg msg
  else if msg.event_type = EVENT_MAN_RECEIVED then _on_manifest_received cfg msg
  else if msg.event_type = EVENT_WO_DISPATCHED ∨ msg.event_type = EVENT_WO_CONCLUDED then
    _on_work_order_event cfg msg
  else if msg.event_type = EVENT_CAT_NEW then _on_catalogue_new cfg
  else if msg.event_type = EVENT_CAT_PROCESSED then _on_catalogue_processed cfg
  else if msg.event_type = EVENT_CAT_REJECTED then _on_catalogue_rejected cfg msg
  else Except.ok []

end Rule

/-! ### Concrete fixtures used by witnesses and counterexamples -/

/-- A concrete configuration (its link fields are those of the spec's
link-construction test). -/
def cfg0 : Config :=
  { email := { from_address := "noreply@x" },
    contact := { email_dev_team := "dev@x", email_hmdmc_verify := "hmdmc@x" },
    link := { protocol := "http", root := "host", port := 80 } }

/-- An event whose type is outside the known tags. -/
def msgUnknown : Message :=
  { event_type := "sample.updated", user_identifier := "u" }

/-- A work-order event whose metadata lacks `work_order_id`. -/
def msgWoNoId : Message :=
  { event_type := "work_order.dispatched", user_identifier := "u" }

/-- A work-order event with `work_order_id` but no `notifier_info.work_plan_id`. -/
def msgWoNoPlan : Message :=
  { event_type := "work_order.dispatched", user_identifier := "u",
    metadata := { work_order_id := some "W1" } }

/-- A manifest.created event with a non-empty `hmdmc` but no `manifest_id`. -/
def msgManCreatedNoMid : Message :=
  { event_type := "manifest.created", user_identifier := "u",
    metadata := { hmdmc := some ["H1"] } }

/-- A manifest.received event with no `manifest_id`. -/
def msgManRecvNoMid : Message :=
  { event_type := "manifest.received", user_identifier := "u" }

/-- A manifest.received event whose `sample_custodian` key is present but
holds the empty string. -/
def msgManRecvCustEmpty : Message :=
  { event_type := "manifest.received", user_identifier := "u",
    metadata := { manifest_id := some "M1", sample_custodian := some "",
                  deputies := some ["d1"] } }

/-- A fully populated manifest.received event. -/
def msgManRecvFull : Message :=
  { event_type := "manifest.received", user_identifier := "u",
    metadata := { manifest_id := some "M1", sample_custodian := some "sc",
                  deputies := some ["d1", "d2"] } }

/-- The single request classification produces for `msgManRecvFull`. -/
def reqManRecvFull : NotificationRequest :=
  { subject := "Manifest Received M1", from_address := "noreply@x",
    «to» := ["u", "sc", "d1", "d2"], template := "manifest_received",
    data := [("manifest_id", Value.str "M1"),
             ("link", Value.str "http://host:80/reception/M1")] }

/-- A fully populated manifest.created event with a non-empty `hmdmc`. -/
def msgManCreatedFull : Message :=
  { event_type := "manifest.created", user_identifier := "u",
    metadata := { manifest_id := some "M1", sample_custodian := some "sc",
                  deputies := some ["d1", "d2"], hmdmc := some ["H1", "H2"] } }

/-- The first request classification produces for `msgManCreatedFull`. -/
def reqManCreatedFull1 : NotificationRequest :=
  { subject := "Manifest Created M1", from_address := "noreply@x",
    «to» := ["u", "sc", "d1", "d2"], template := "manifest_created",
    data := [("manifest_id", Value.str "M1"),
             ("link", Value.str "http://host:80/reception/M1"),
             ("user_identifier", Value.str "u")] }

/-- The second (hmdmc) request classification produces for `msgManCreatedFull`. -/
def reqManCreatedFull2 : NotificationRequest :=
  { subject := "Manifest Created HMDMC M1", from_address := "noreply@x",
    «to» := ["hmdmc@x"], template := "manifest_created_hmdmc",
    data := [("manifest_id", Value.str "M1"),
             ("link", Value.str "http://host:80/reception/M1"),
             ("user_identifier", Value.str "u"),
             ("hmdmc_list", Value.strList ["H1", "H2"])] }

/-- A catalogue.rejected event whose `error` key is present but empty. -/
def msgCatRejEmptyErr : Message :=
  { event_type := "catalogue.rejected", user_identifier := "u",
    metadata := { error := some "" }, timestamp := "T" }

/-- A catalogue.new event. -/
def msgCatNew : Message :=
  { event_type := "catalogue.new", user_identifier := "u" }

/-- The single request classification produces for `msgCatNew`. -/
def reqCatNew : NotificationRequest :=
  { subject := Consts.SBJ_CAT_NEW, from_address := "noreply@x",
    «to» := ["dev@x"], template := "catalogue_new", data := [] }

/-! ### Helper lemmas -/

/-- Assigning `d[k] = v` puts the pair `(k, v)` in the dictionary. -/
lemma dictSet_self_mem (d : Dict) (k : String) (v : Value) :
    (k, v) ∈ dictSet d k v := by
  induction d with
  | nil => simp [dictSet]
  | cons kv rest ih =>
    obtain ⟨k', v'⟩ := kv
    by_cases h : k' = k <;> simp [dictSet, h, ih]

/-- The recipient list built by `_common_manifest`, in closed form:
the user identifier, then the truthy sample custodian, then the truthy
deputies in metadata order. -/
lemma common_manifest_to_eq (cfg : Config) (msg : Message) :
    (Rule._common_manifest cfg msg).1 =
      [msg.user_identifier]
        ++ (if truthyS msg.metadata.sample_custodian then
              [msg.metadata.sample_custodian.getD ""] else [])
        ++ (if truthyL msg.metadata.deputies then
              msg.metadata.deputies.getD [] else []) := by
  unfold Rule._common_manifest
  split_ifs <;> simp

/-! ### Claim theorems -/

/-- C5: for every event whose `event_type` is not one of the seven known tags
(manifest.created, manifest.received, work_order.dispatched,
work_order.concluded, catalogue.new, catalogue.processed,
catalogue.rejected), `check_rules` returns an empty sequence of notification
requests and raises no error. -/
theorem check_rules_unknown_event_type (cfg : Config) (msg : Message)
    (h : msg.event_type ∉ [Consts.EVENT_MAN_CREATED, Consts.EVENT_MAN_RECEIVED,
      Consts.EVENT_WO_DISPATCHED, Consts.EVENT_WO_CONCLUDED, Consts.EVENT_CAT_NEW,
      Consts.EVENT_CAT_PROCESSED, Consts.EVENT_CAT_REJECTED]) :
    Rule.check_rules cfg msg = Except.ok [] := by
  simp only [List.mem_cons, List.not_mem_nil, or_false, not_or] at h
  obtain ⟨h1, h2, h3, h4, h5, h6, h7⟩ := h
  simp [Rule.check_rules, h1, h2, h3, h4, h5, h6, h7]

/-- Witness for C5 at the concrete unknown event type `sample.updated`. -/
theorem check_rules_unknown_event_type_witness :
    msgUnknown.event_type ∉ [Consts.EVENT_MAN_CREATED, Consts.EVENT_MAN_RECEIVED,
      Consts.EVENT_WO_DISPATCHED, Consts.EVENT_WO_CONCLUDED, Consts.EVENT_CAT_NEW,
      Consts.EVENT_CAT_PROCESSED, Consts.EVENT_CAT_REJECTED] ∧
    Rule.check_rules cfg0 msgUnknown = Except.ok [] :=
  ⟨by decide, check_rules_unknown_event_type cfg0 msgUnknown (by decide)⟩

/-- C8: both link builders produce
`protocol://root:port/seg1/.../segN` with the identifiers inserted verbatim;
in particular the manifest link for `("http", "host", 80, "reception",
"M123")` is `"http://host:80/reception/M123"`, and the work-order link frames
the work plan id between the fixed begin and end path segments. -/
theorem link_building_spec :
    (∀ (cfg : Config) (path id : String),
      Rule._generate_manifest_link cfg path id =
        cfg.link.protocol ++ "://" ++ cfg.link.root ++ ":"
          ++ toString cfg.link.port ++ "/" ++ path ++ "/" ++ id) ∧
    Rule._generate_manifest_link cfg0 "reception" "M123" = "http://host:80/reception/M123" ∧
    (∀ (cfg : Config) (work_plan_id : String),
      Rule._generate_wo_link cfg work_plan_id =
        cfg.link.protocol ++ "://" ++ cfg.link.root ++ ":"
          ++ toString cfg.link.port ++ "/" ++ Consts.PATH_WORK_ORDER_BEGIN
          ++ "/" ++ work_plan_id ++ "/" ++ Consts.PATH_WORK_ORDER_END) :=
  ⟨fun _ _ _ => rfl, rfl, fun _ _ => rfl⟩

/-- C1 (code bug): classifying a work-order event whose metadata lacks
`work_order_id` does raise to the caller.  `_common_work_order` raises
`ValueError`, the handler's `except ValueError` block evaluates
`error.message` — an attribute a Python 3 `ValueError` does not have — so an
`AttributeError` escapes `check_rules` before anything is logged or sent (and
even where `error.message` exists, the next statement reads the unbound local
`data` and raises `NameError`). -/
theorem work_order_missing_id_raises :
    Rule.check_rules cfg0 msgWoNoId =
      Except.error (PyErr.attributeError "ValueError object has no attribute message") := rfl

/-- C3 counterexample: a manifest.received event with no `manifest_id` DOES
raise: `_common_manifest` omits the keys, but the handler's subject line
indexes `metadata['manifest_id']` and a `KeyError` escapes to the caller. -/
theorem manifest_missing_id_counterexample :
    msgManRecvNoMid.metadata.manifest_id = none ∧
    Rule.check_rules cfg0 msgManRecvNoMid = Except.error (PyErr.keyError "manifest_id") :=
  ⟨rfl, rfl⟩

/-- C3 amended: for a manifest.created or manifest.received event whose
metadata lacks `manifest_id`, the shared `_common_manifest` helper yields an
empty data dict (omitting `manifest_id` and `link`, without raising), but
classification then raises `KeyError "manifest_id"` from the subject line and
produces no request. -/
theorem manifest_missing_id_amended (cfg : Config) (msg : Message)
    (h1 : msg.event_type = Consts.EVENT_MAN_CREATED ∨
          msg.event_type = Consts.EVENT_MAN_RECEIVED)
    (h2 : msg.metadata.manifest_id = none) :
    (Rule._common_manifest cfg msg).2 = [] ∧
    Rule.check_rules cfg msg = Except.error (PyErr.keyError "manifest_id") := by
  constructor
  · unfold Rule._common_manifest
    simp [h2, truthyS]
  · rcases h1 with h1 | h1 <;>
      simp [Rule.check_rules, h1, Consts.EVENT_MAN_CREATED, Consts.EVENT_MAN_RECEIVED,
        Consts.EVENT_WO_DISPATCHED, Consts.EVENT_WO_CONCLUDED, Consts.EVENT_CAT_NEW,
        Consts.EVENT_CAT_PROCESSED, Consts.EVENT_CAT_REJECTED,
        Rule._on_manifest_create, Rule._on_manifest_received, h2]

/-- Witness for the C3 amended theorem at a concrete manifest.received event. -/
theorem manifest_missing_id_amended_witness :
    (Rule._common_manifest cfg0 msgManRecvNoMid).2 = [] ∧
    Rule.check_rules cfg0 msgManRecvNoMid = Except.error (PyErr.keyError "manifest_id") :=
  manifest_missing_id_amended cfg0 msgManRecvNoMid (Or.inr rfl) rfl

/-- C4 counterexample: a work-order event with `work_order_id` but no
`notifier_info.work_plan_id` does NOT fail like a missing `work_order_id`:
an uncaught `KeyError` propagates to the caller (past the handler's
`except ValueError`, with nothing logged). -/
theorem wo_missing_notifier_info_counterexample :
    msgWoNoPlan.metadata.work_order_id = some "W1" ∧
    msgWoNoPlan.notifier_info.work_plan_id = none ∧
    Rule.check_rules cfg0 msgWoNoPlan = Except.error (PyErr.keyError "work_plan_id") :=
  ⟨rfl, rfl, rfl⟩

/-- C4 amended: for a work-order event with a truthy `work_order_id`, a
missing `notifier_info.work_plan_id` or `notifier_info.drs_study_code` makes
classification produce zero requests and raise a `KeyError` (naming the
missing key) to the caller, with nothing caught or logged. -/
theorem wo_missing_notifier_info_amended (cfg : Config) (msg : Message) (wid : String)
    (h1 : msg.event_type = Consts.EVENT_WO_DISPATCHED ∨
          msg.event_type = Consts.EVENT_WO_CONCLUDED)
    (h2 : msg.metadata.work_order_id = some wid)
    (h3 : wid ≠ "")
    (h4 : msg.notifier_info.work_plan_id = none ∨
          msg.notifier_info.drs_study_code = none) :
    Rule.check_rules cfg msg = Except.error (PyErr.keyError "work_plan_id") ∨
    Rule.check_rules cfg msg = Except.error (PyErr.keyError "drs_study_code") := by
  have htr : truthyS (some wid) = true := by
    simp [truthyS, Bool.eq_false_iff, String.isEmpty_iff, h3]
  have hwo : Rule.check_rules cfg msg = Rule._on_work_order_event cfg msg := by
    rcases h1 with h1 | h1 <;>
      simp [Rule.check_rules, h1, Consts.EVENT_MAN_CREATED, Consts.EVENT_MAN_RECEIVED,
        Consts.EVENT_WO_DISPATCHED, Consts.EVENT_WO_CONCLUDED, Consts.EVENT_CAT_NEW,
        Consts.EVENT_CAT_PROCESSED, Consts.EVENT_CAT_REJECTED]
  rw [hwo]
  rcases h4 with h4 | h4
  · left
    simp [Rule._on_work_order_event, Rule._common_work_order, htr, h2, h4]
  · cases hwp : msg.notifier_info.work_plan_id with
    | none =>
      left
      simp [Rule._on_work_order_event, Rule._common_work_order, htr, h2, hwp]
    | some wpid =>
      right
      simp [Rule._on_work_order_event, Rule._common_work_order, htr, h2, hwp, h4]

/-- Witness for the C4 amended theorem at a concrete dispatched event. -/
theorem wo_missing_notifier_info_amended_witness :
    Rule.check_rules cfg0 msgWoNoPlan = Except.error (PyErr.keyError "work_plan_id") ∨
    Rule.check_rules cfg0 msgWoNoPlan = Except.error (PyErr.keyError "drs_study_code") :=
  wo_missing_notifier_info_amended cfg0 msgWoNoPlan "W1" (Or.inl rfl) rfl
    (by decide) (Or.inl rfl)

/-- C6 counterexample: a catalogue.rejected event whose `error` key is
present but holds the empty string produces an empty data dict, not
`{error, timestamp}` — presence alone is not what the code tests. -/
theorem catalogue_rejected_empty_error_counterexample :
    msgCatRejEmptyErr.metadata.error = some "" ∧
    Rule.check_rules cfg0 msgCatRejEmptyErr = Except.ok
      [{ subject := Consts.SBJ_CAT_REJECTED, from_address := "noreply@x",
         «to» := ["dev@x"], template := "catalogue_rejected", data := [] }] :=
  ⟨rfl, rfl⟩

/-- C6 amended: every catalogue.rejected event yields exactly one request,
with recipients `[config.contact.email_dev_team]` and template
`catalogue_rejected`; its data is `{error: metadata.error, timestamp:
event.timestamp}` when `metadata.error` is present and non-empty (truthy),
and the empty dict otherwise. -/
theorem catalogue_rejected_amended (cfg : Config) (msg : Message)
    (h1 : msg.event_type = Consts.EVENT_CAT_REJECTED) :
    ∃ req, Rule.check_rules cfg msg = Except.ok [req] ∧
      req.«to» = [cfg.contact.email_dev_team] ∧
      req.template = "catalogue_rejected" ∧
      (truthyS msg.metadata.error = true →
        req.data = [("error", Value.str (msg.metadata.error.getD "")),
                    ("timestamp", Value.str msg.timestamp)]) ∧
      (truthyS msg.metadata.error = false → req.data = []) := by
  have hcr : Rule.check_rules cfg msg = Rule._on_catalogue_rejected cfg msg := by
    simp [Rule.check_rules, h1, Consts.EVENT_MAN_CREATED, Consts.EVENT_MAN_RECEIVED,
      Consts.EVENT_WO_DISPATCHED, Consts.EVENT_WO_CONCLUDED, Consts.EVENT_CAT_NEW,
      Consts.EVENT_CAT_PROCESSED, Consts.EVENT_CAT_REJECTED]
  rw [hcr]
  unfold Rule._on_catalogue_rejected
  cases hc : truthyS msg.metadata.error with
  | false =>
    simp only [hc, Bool.false_eq_true, if_false]
    exact ⟨_, rfl, rfl, rfl, fun h => h.elim, fun _ => rfl⟩
  | true =>
    simp only [hc, if_true]
    refine ⟨_, rfl, rfl, rfl, fun _ => ?_, fun h => by simp at h⟩
    simp [dictSet]

/-- Witness for the C6 amended theorem at a concrete catalogue.rejected
event (present-but-empty `error`, so the data dict is empty). -/
theorem catalogue_rejected_amended_witness :
    ∃ req, Rule.check_rules cfg0 msgCatRejEmptyErr = Except.ok [req] ∧
      req.«to» = [cfg0.contact.email_dev_team] ∧
      req.template = "catalogue_rejected" ∧
      (truthyS msgCatRejEmptyErr.metadata.error = true →
        req.data = [("error", Value.str (msgCatRejEmptyErr.metadata.error.getD "")),
                    ("timestamp", Value.str msgCatRejEmptyErr.timestamp)]) ∧
      (truthyS msgCatRejEmptyErr.metadata.error = false → req.data = []) :=
  catalogue_rejected_amended cfg0 msgCatRejEmptyErr rfl

/-- Dispatch lemma: a manifest.created event goes to `_on_manifest_create`. -/
lemma check_rules_manifest_created (cfg : Config) (msg : Message)
    (h : msg.event_type = Consts.EVENT_MAN_CREATED) :
    Rule.check_rules cfg msg = Rule._on_manifest_create cfg msg := by
  simp [Rule.check_rules, h]

/-- Dispatch lemma: a manifest.received event goes to `_on_manifest_received`. -/
lemma check_rules_manifest_received (cfg : Config) (msg : Message)
    (h : msg.event_type = Consts.EVENT_MAN_RECEIVED) :
    Rule.check_rules cfg msg = Rule._on_manifest_received cfg msg := by
  simp [Rule.check_rules, h, Consts.EVENT_MAN_CREATED, Consts.EVENT_MAN_RECEIVED]

/-- C2 counterexample: a manifest.created event with non-empty `hmdmc` but no
`manifest_id` produces zero requests (a `KeyError` escapes), not the two the
claim demands for every such event. -/
theorem manifest_created_count_counterexample :
    msgManCreatedNoMid.event_type = "manifest.created" ∧
    msgManCreatedNoMid.metadata.hmdmc = some ["H1"] ∧
    Rule.check_rules cfg0 msgManCreatedNoMid = Except.error (PyErr.keyError "manifest_id") :=
  ⟨rfl, rfl, rfl⟩

/-- C2 amended: for every manifest.created event whose metadata contains
`manifest_id`, classification succeeds and produces exactly 2 requests iff
`metadata.hmdmc` is present and non-empty (the second with recipients exactly
`[config.contact.email_hmdmc_verify]`, template `manifest_created_hmdmc`,
subject `"Manifest Created HMDMC " ++ manifest_id`, and data containing
`hmdmc_list`), and exactly 1 request otherwise. -/
theorem manifest_created_request_count (cfg : Config) (msg : Message) (mid : String)
    (h1 : msg.event_type = Consts.EVENT_MAN_CREATED)
    (h2 : msg.metadata.manifest_id = some mid) :
    ∃ reqs, Rule.check_rules cfg msg = Except.ok reqs ∧
      (truthyL msg.metadata.hmdmc = true →
        ∃ r1 r2, reqs = [r1, r2] ∧
          r2.«to» = [cfg.contact.email_hmdmc_verify] ∧
          r2.template = "manifest_created_hmdmc" ∧
          r2.subject = "Manifest Created HMDMC " ++ mid ∧
          ("hmdmc_list", Value.strList (msg.metadata.hmdmc.getD [])) ∈ r2.data) ∧
      (truthyL msg.metadata.hmdmc = false → reqs.length = 1) := by
  rw [check_rules_manifest_created cfg msg h1]
  unfold Rule._on_manifest_create
  simp only [h2]
  cases hc : truthyL msg.metadata.hmdmc with
  | false =>
    simp only [hc, Bool.false_eq_true, if_false]
    exact ⟨_, rfl, fun h => h.elim, fun _ => rfl⟩
  | true =>
    simp only [hc, if_true]
    exact ⟨_, rfl,
      fun _ => ⟨_, _, rfl, rfl, rfl, rfl, dictSet_self_mem _ _ _⟩,
      fun h => by simp at h⟩

/-- Witness for the C2 amended theorem at a concrete manifest.created event
with non-empty `hmdmc`. -/
theorem manifest_created_request_count_witness :
    ∃ reqs, Rule.check_rules cfg0 msgManCreatedFull = Except.ok reqs ∧
      (truthyL msgManCreatedFull.metadata.hmdmc = true →
        ∃ r1 r2, reqs = [r1, r2] ∧
          r2.«to» = [cfg0.contact.email_hmdmc_verify] ∧
          r2.template = "manifest_created_hmdmc" ∧
          r2.subject = "Manifest Created HMDMC " ++ "M1" ∧
          ("hmdmc_list", Value.strList (msgManCreatedFull.metadata.hmdmc.getD [])) ∈ r2.data) ∧
      (truthyL msgManCreatedFull.metadata.hmdmc = false → reqs.length = 1) :=
  manifest_created_request_count cfg0 msgManCreatedFull "M1" rfl rfl

/-- C7 counterexample: (a) a present-but-empty `sample_custodian` is NOT
included in `to` (the code tests truthiness, not presence); (b) for a
manifest.created event with `hmdmc`, the second produced request's `to` is
the hmdmc-verify address and does not start with `user_identifier`. -/
theorem manifest_to_order_counterexample :
    (msgManRecvCustEmpty.metadata.sample_custodian = some "" ∧
      Rule.check_rules cfg0 msgManRecvCustEmpty = Except.ok
        [{ subject := "Manifest Received M1", from_address := "noreply@x",
           «to» := ["u", "d1"], template := "manifest_received",
           data := [("manifest_id", Value.str "M1"),
                    ("link", Value.str "http://host:80/reception/M1")] }]) ∧
    (Rule.check_rules cfg0 msgManCreatedFull =
        Except.ok [reqManCreatedFull1, reqManCreatedFull2] ∧
      reqManCreatedFull2.«to» = ["hmdmc@x"] ∧
      msgManCreatedFull.user_identifier = "u" ∧ "hmdmc@x" ≠ "u") :=
  ⟨⟨rfl, rfl⟩, rfl, rfl, rfl, by decide⟩

/-- C7 amended: for every manifest.created or manifest.received event, the
FIRST produced request's `to` list is `user_identifier`, followed by
`sample_custodian` iff it is present and non-empty, followed by the deputies
iff present and non-empty, in metadata order (the second, hmdmc request of
manifest.created goes to the verify address instead). -/
theorem manifest_to_order_amended (cfg : Config) (msg : Message)
    (reqs : List NotificationRequest) (r : NotificationRequest)
    (rest : List NotificationRequest)
    (h1 : msg.event_type = Consts.EVENT_MAN_CREATED ∨
          msg.event_type = Consts.EVENT_MAN_RECEIVED)
    (h2 : Rule.check_rules cfg msg = Except.ok reqs)
    (h3 : reqs = r :: rest) :
    r.«to» = [msg.user_identifier]
      ++ (if truthyS msg.metadata.sample_custodian then
            [msg.metadata.sample_custodian.getD ""] else [])
      ++ (if truthyL msg.metadata.deputies then
            msg.metadata.deputies.getD [] else []) := by
  subst h3
  rcases h1 with h1 | h1
  · rw [check_rules_manifest_created cfg msg h1] at h2
    unfold Rule._on_manifest_create at h2
    cases hm : msg.metadata.manifest_id with
    | none => simp [hm] at h2
    | some mid =>
      simp only [hm] at h2
      split at h2 <;>
        · injection h2 with h2
          rw [List.cons.injEq] at h2
          rw [← h2.1]
          simpa using common_manifest_to_eq cfg msg
  · rw [check_rules_manifest_received cfg msg h1] at h2
    unfold Rule._on_manifest_received at h2
    cases hm : msg.metadata.manifest_id with
    | none => simp [hm] at h2
    | some mid =>
      simp only [hm] at h2
      injection h2 with h2
      rw [List.cons.injEq] at h2
      rw [← h2.1]
      simpa using common_manifest_to_eq cfg msg

/-- Witness for the C7 amended theorem at a concrete manifest.received event
with custodian and two deputies. -/
theorem manifest_to_order_amended_witness :
    reqManRecvFull.«to» = [msgManRecvFull.user_identifier]
      ++ (if truthyS msgManRecvFull.metadata.sample_custodian then
            [msgManRecvFull.metadata.sample_custodian.getD ""] else [])
      ++ (if truthyL msgManRecvFull.metadata.deputies then
            msgManRecvFull.metadata.deputies.getD [] else []) :=
  manifest_to_order_amended cfg0 msgManRecvFull [reqManRecvFull] reqManRecvFull []
    (Or.inr rfl) rfl rfl

/-- The recipient list `_common_work_order` returns on success is exactly
`[user_identifier]`. -/
lemma common_work_order_ok_to (cfg : Config) (msg : Message)
    (td : List String × Dict) (h : Rule._common_work_order cfg msg = Except.ok td) :
    td.1 = [msg.user_identifier] := by
  unfold Rule._common_work_order at h
  split at h
  · split at h
    · injection h with h
      rw [← h]
    · exact absurd h (by simp)
    · exact absurd h (by simp)
  · exact absurd h (by simp)

/-- Requests from `_on_manifest_create` have non-empty recipient lists. -/
lemma to_ne_nil_manifest_create (cfg : Config) (msg : Message)
    (reqs : List NotificationRequest)
    (h : Rule._on_manifest_create cfg msg = Except.ok reqs) :
    ∀ r ∈ reqs, r.«to» ≠ [] := by
  unfold Rule._on_manifest_create at h
  cases hm : msg.metadata.manifest_id with
  | none => simp [hm] at h
  | some mid =>
    simp only [hm] at h
    split at h <;>
      (injection h with h; subst h; intro r hr; simp only [List.mem_cons] at hr) <;>
      rcases hr with rfl | hr
    · simp [common_manifest_to_eq]
    · rcases hr with rfl | hr
      · simp
      · simp at hr
    · simp [common_manifest_to_eq]
    · simp at hr

/-- Requests from `_on_manifest_received` have non-empty recipient lists. -/
lemma to_ne_nil_manifest_received (cfg : Config) (msg : Message)
    (reqs : List NotificationRequest)
    (h : Rule._on_manifest_received cfg msg = Except.ok reqs) :
    ∀ r ∈ reqs, r.«to» ≠ [] := by
  unfold Rule._on_manifest_received at h
  cases hm : msg.metadata.manifest_id with
  | none => simp [hm] at h
  | some mid =>
    simp only [hm] at h
    injection h with h
    subst h
    intro r hr
    simp only [List.mem_cons] at hr
    rcases hr with rfl | hr
    · simp [common_manifest_to_eq]
    · simp at hr

/-- Requests from `_on_work_order_event` have non-empty recipient lists. -/
lemma to_ne_nil_work_order (cfg : Config) (msg : Message)
    (reqs : List NotificationRequest)
    (h : Rule._on_work_order_event cfg msg = Except.ok reqs) :
    ∀ r ∈ reqs, r.«to» ≠ [] := by
  unfold Rule._on_work_order_event at h
  cases hcw : Rule._common_work_order cfg msg with
  | error e => cases e <;> simp [hcw] at h
  | ok td =>
    simp only [hcw] at h
    cases hw : msg.metadata.work_order_id with
    | none => simp [hw] at h
    | some wid =>
      cases hd : msg.notifier_info.drs_study_code with
      | none => simp [hw, hd] at h
      | some drs =>
        simp only [hw, hd] at h
        injection h with h
        subst h
        intro r hr
        simp only [List.mem_cons] at hr
        rcases hr with rfl | hr
        · simp [common_work_order_ok_to cfg msg td hcw]
        · simp at hr

/-- C9: for every event and config, every notification request produced by a
successful classification has a non-empty `to` list. -/
theorem produced_to_nonempty (cfg : Config) (msg : Message)
    (reqs : List NotificationRequest)
    (h : Rule.check_rules cfg msg = Except.ok reqs) :
    ∀ r ∈ reqs, r.«to» ≠ [] := by
  unfold Rule.check_rules at h
  split at h
  · exact to_ne_nil_manifest_create cfg msg reqs h
  · split at h
    · exact to_ne_nil_manifest_received cfg msg reqs h
    · split at h
      · exact to_ne_nil_work_order cfg msg reqs h
      · split at h
        · unfold Rule._on_catalogue_new at h
          injection h with h
          subst h
          intro r hr
          simp only [List.mem_cons] at hr
          rcases hr with rfl | hr
          · simp [Rule._common_catalogue]
          · simp at hr
        · split at h
          · unfold Rule._on_catalogue_processed at h
            injection h with h
            subst h
            intro r hr
            simp only [List.mem_cons] at hr
            rcases hr with rfl | hr
            · simp [Rule._common_catalogue]
            · simp at hr
          · split at h
            · unfold Rule._on_catalogue_rejected at h
              injection h with h
              subst h
              intro r hr
              simp only [List.mem_cons] at hr
              rcases hr with rfl | hr
              · simp
              · simp at hr
            · injection h with h
              subst h
              intro r hr
              simp at hr

/-- Witness for C9 at a concrete catalogue.new event. -/
theorem produced_to_nonempty_witness : reqCatNew.«to» ≠ [] :=
  produced_to_nonempty cfg0 msgCatNew [reqCatNew] rfl reqCatNew (by simp)

/-- When `metadata.get('manifest_id')` is truthy, the `_common_manifest`
data dict is exactly the `manifest_id` entry followed by the `link` entry. -/
lemma common_manifest_data_of_truthy (cfg : Config) (msg : Message) (mid : String)
    (h2 : msg.metadata.manifest_id = some mid) (hmid : mid.isEmpty = false) :
    (Rule._common_manifest cfg msg).2 =
      [("manifest_id", Value.str mid),
       ("link", Value.str (Rule._generate_manifest_link cfg Consts.PATH_RECEPTION mid))] := by
  unfold Rule._common_manifest
  simp [h2, truthyS, hmid, dictSet]

/-- Adding the fresh `hmdmc_list` key to the data dict built by
`_on_manifest_create` appends it at the end. -/
lemma hmdmc_dictSet_eq_append (cfg : Config) (msg : Message) (v : Value) :
    dictSet (dictSet (Rule._common_manifest cfg msg).2 "user_identifier"
      (Value.str msg.user_identifier)) "hmdmc_list" v =
    dictSet (Rule._common_manifest cfg msg).2 "user_identifier"
      (Value.str msg.user_identifier) ++ [("hmdmc_list", v)] := by
  unfold Rule._common_manifest
  split_ifs <;> simp [dictSet]

/-- C10 (implicit): for a manifest.created event with `manifest_id` and a
non-empty `hmdmc`, the second (hmdmc) request's data dict is the first
request's entire data dict with `hmdmc_list` appended — it also carries
`user_identifier`, and `manifest_id` and `link` whenever those are present,
because the Python handler passes one shared (mutated) dict to both
`send_email` calls. -/
theorem manifest_hmdmc_shared_data (cfg : Config) (msg : Message)
    (mid : String) (hm : List String)
    (h1 : msg.event_type = Consts.EVENT_MAN_CREATED)
    (h2 : msg.metadata.manifest_id = some mid)
    (h3 : msg.metadata.hmdmc = some hm)
    (h4 : hm ≠ []) :
    ∃ r1 r2, Rule.check_rules cfg msg = Except.ok [r1, r2] ∧
      r2.data = r1.data ++ [("hmdmc_list", Value.strList hm)] ∧
      ("user_identifier", Value.str msg.user_identifier) ∈ r2.data ∧
      (mid.isEmpty = false →
        ("manifest_id", Value.str mid) ∈ r2.data ∧
        ("link", Value.str (Rule._generate_manifest_link cfg Consts.PATH_RECEPTION mid))
          ∈ r2.data) := by
  rw [check_rules_manifest_created cfg msg h1]
  unfold Rule._on_manifest_create
  have hc : truthyL (some hm) = true := by
    cases hm with
    | nil => exact absurd rfl h4
    | cons a t => simp [truthyL]
  simp only [h2, hc, if_true, h3, Option.getD_some]
  refine ⟨_, _, rfl, ?_, ?_, ?_⟩
  · exact hmdmc_dictSet_eq_append cfg msg (Value.strList hm)
  · rw [hmdmc_dictSet_eq_append cfg msg (Value.strList hm)]
    exact List.mem_append_left _ (dictSet_self_mem _ _ _)
  · intro hmid
    rw [hmdmc_dictSet_eq_append cfg msg (Value.strList hm),
      common_manifest_data_of_truthy cfg msg mid h2 hmid]
    constructor <;> simp [dictSet]

/-- Witness for C10 at a concrete manifest.created event with `hmdmc`. -/
theorem manifest_hmdmc_shared_data_witness :
    ∃ r1 r2, Rule.check_rules cfg0 msgManCreatedFull = Except.ok [r1, r2] ∧
      r2.data = r1.data ++ [("hmdmc_list", Value.strList ["H1", "H2"])] ∧
      ("user_identifier", Value.str msgManCreatedFull.user_identifier) ∈ r2.data ∧
      ("M1".isEmpty = false →
        ("manifest_id", Value.str "M1") ∈ r2.data ∧
        ("link", Value.str (Rule._generate_manifest_link cfg0 Consts.PATH_RECEPTION "M1"))
          ∈ r2.data) :=
  manifest_hmdmc_shared_data cfg0 msgManCreatedFull "M1" ["H1", "H2"]
    rfl rfl rfl (by decide)
